import Mathlib

/-!
Verification of the reddit-go client library core: the polymorphic entity
decoder (`Thing.UnmarshalJSON` and the variant codecs `Edited` and
`HeaderSize` from types.go) and the pagination cursor (`Stream` from
auth.go).

Modelling conventions:
* Go byte slices handed to custom `UnmarshalJSON` methods are modelled as
  `String`.
* Go errors are modelled as `String` (all errors in the sources are
  `fmt.Errorf` strings); error messages produced by the repository's own
  `fmt.Errorf` calls are modelled verbatim, messages produced inside the
  Go standard library are modelled as short descriptive strings (no
  theorem inspects those).
* Go `float64` values are modelled as exact rationals: the only uses in
  the sources are storing `strconv.ParseFloat` results and (incorrectly)
  formatting them with the `%d` verb, so IEEE rounding is never
  observable by any statement proved here.
* Mutating methods on a receiver are modelled as functions from the prior
  receiver value (and input) to the new receiver value (and error).
-/

/-- Go errors in this package are all `fmt.Errorf` strings. -/
abbrev GoError := String

/-- Decidable equality for `Except`, used to evaluate concrete decode
results inside proofs. -/
instance {ε α : Type} [DecidableEq ε] [DecidableEq α] : DecidableEq (Except ε α) := fun a b =>
  match a, b with
  | .ok x, .ok y => if h : x = y then .isTrue (by rw [h]) else .isFalse (by simp [h])
  | .error x, .error y => if h : x = y then .isTrue (by rw [h]) else .isFalse (by simp [h])
  | .ok _, .error _ => .isFalse (by simp)
  | .error _, .ok _ => .isFalse (by simp)

/-- Parsed JSON values, the post-syntax form of the bytes fed to
`encoding/json`. Numbers carry their exact rational value. -/
inductive JVal where
  | null
  | bool (b : Bool)
  | num (q : ℚ)
  | str (s : String)
  | arr (elems : List JVal)
  | obj (fields : List (String × JVal))

/-- Decimal digits to the natural number they denote, most significant first. -/
def natOfDigits (ds : List Char) : ℕ :=
  ds.foldl (fun n c => 10 * n + (c.toNat - 48)) 0

/-- The exact rational `sgn * m * 10 ^ e` of a decoded decimal literal
with integer sign `sgn`, mantissa digits `m` and scale exponent `e`.
Built with `mkRat` and integer arithmetic only, so that it evaluates
inside the kernel. -/
def ratOfParts (sgn : ℤ) (m : ℕ) (e : ℤ) : ℚ :=
  if 0 ≤ e then mkRat (sgn * (m * Nat.pow 10 e.toNat : ℕ)) 1
  else mkRat (sgn * m) (Nat.pow 10 (-e).toNat)

/-- Model of Go `strconv.ParseFloat(s, 64)` on decimal literals: optional
sign, digits with optional fraction and exponent, the whole string
consumed, at least one mantissa digit. The value is kept exact as a
rational (IEEE rounding is not observable by any claim). Go additionally
accepts `Inf`/`NaN`/hex-float spellings, which can never reach this codec
from valid JSON and are outside the modelled domain. -/
def goParseFloat (s : String) : Option ℚ :=
  match s.data with
  | [] => none
  | cs0 =>
    let sgnCs : ℤ × List Char :=
      match cs0 with
      | '+' :: r => (1, r)
      | '-' :: r => (-1, r)
      | r => (1, r)
    let sgn := sgnCs.1
    let ipRest := sgnCs.2.span (fun c => c.isDigit)
    let ip := ipRest.1
    let fpRest : List Char × List Char :=
      match ipRest.2 with
      | '.' :: r => r.span (fun c => c.isDigit)
      | r => ([], r)
    let fp := fpRest.1
    if ip.isEmpty && fp.isEmpty then none
    else
      let mant : ℕ := natOfDigits (ip ++ fp)
      match fpRest.2 with
      | [] => some (ratOfParts sgn mant (-(fp.length : ℤ)))
      | e :: r =>
        if e = 'e' ∨ e = 'E' then
          let esgnR : Bool × List Char :=
            match r with
            | '+' :: r2 => (true, r2)
            | '-' :: r2 => (false, r2)
            | r2 => (true, r2)
          let edRest := esgnR.2.span (fun c => c.isDigit)
          if edRest.1.isEmpty ∨ ¬ edRest.2.isEmpty then none
          else
            let ex : ℤ :=
              if esgnR.1 then (natOfDigits edRest.1 : ℤ) else -(natOfDigits edRest.1 : ℤ)
            some (ratOfParts sgn mant (ex - (fp.length : ℤ)))
        else none

/-- The `Edited` marker from types.go: either "not edited" or "edited at
a timestamp". Fields `unix`/`edited` model Go's `Unix float64` and
`Edited bool`. -/
structure Edited where
  unix : ℚ
  edited : Bool
deriving DecidableEq

/-- Model of `Edited.UnmarshalJSON`: the literal `false` decodes to the
not-edited value, any other token is handed to `strconv.ParseFloat`, and
a parse failure is returned as the decode error. -/
def editedUnmarshalJSON (b : String) : Except GoError Edited :=
  if b = "false" then .ok ⟨0, false⟩
  else
    match goParseFloat b with
    | some v => .ok ⟨v, true⟩
    | none => .error ("strconv.ParseFloat: parsing " ++ b ++ ": invalid syntax")

/-- Model of the `%v` rendering that Go `fmt` embeds inside a bad-verb
token for a `float64` operand. Only the surrounding `%!d(float64=...)`
wrapper is relied upon by any theorem below, so the inner digit string is
abstracted to the rational's default rendering. -/
def goFloatVerbV (q : ℚ) : String := toString q

/-- Model of Go `fmt.Sprintf("%d", x)` for a `float64` operand `x`: fmt
emits the documented wrong-verb error token `%!d(float64=v)` where `v` is
the operand's `%v` rendering. -/
def goSprintfIntVerbFloat64 (q : ℚ) : String :=
  "%!d(float64=" ++ goFloatVerbV q ++ ")"

/-- Model of `Edited.MarshalJSON`: `false` for a not-edited value, else
`fmt.Sprintf("%d", e.Unix)` — note the integer verb applied to a
`float64` field. -/
def editedMarshalJSON (e : Edited) : String :=
  if e.edited then goSprintfIntVerbFloat64 e.unix else "false"

/-- Encode-after-decode composition for the `Edited` codec. -/
def editedRoundTrip (s : String) : Except GoError String :=
  (editedUnmarshalJSON s).map editedMarshalJSON

/-- Skip JSON insignificant whitespace. -/
def skipWS : List Char → List Char
  | c :: r => if c = ' ' ∨ c = '\t' ∨ c = '\n' ∨ c = '\r' then skipWS r else c :: r
  | [] => []

/-- Parse one JSON integer literal (as accepted into a Go `int`):
optional minus, digits without a leading zero, not followed by a fraction
or exponent. Returns the value and the remaining input. -/
def parseJSONInt (cs : List Char) : Option (ℤ × List Char) :=
  let negCs : Bool × List Char :=
    match cs with
    | '-' :: r => (true, r)
    | r => (false, r)
  match negCs.2 with
  | [] => none
  | c :: _ =>
    if ¬ c.isDigit then none
    else
      let dsRest := negCs.2.span (fun x => x.isDigit)
      if dsRest.1.length > 1 ∧ dsRest.1.headI = '0' then none
      else
        match dsRest.2 with
        | '.' :: _ => none
        | 'e' :: _ => none
        | 'E' :: _ => none
        | _ =>
          some (if negCs.1 then -(natOfDigits dsRest.1 : ℤ) else (natOfDigits dsRest.1 : ℤ),
            dsRest.2)

/-- Parse the comma-separated integer elements of a JSON array up to and
including the closing bracket. Fuel bounds the recursion by the input
length. -/
def parseIntElems : ℕ → List Char → List ℤ → Option (List ℤ × List Char)
  | 0, _, _ => none
  | fuel + 1, cs, acc =>
    match parseJSONInt (skipWS cs) with
    | none => none
    | some (n, rest) =>
      match skipWS rest with
      | ',' :: r => parseIntElems fuel r (acc ++ [n])
      | ']' :: r => some (acc ++ [n], r)
      | _ => none

/-- Model of Go `json.Unmarshal(b, &v)` for `v []int`: accepts `null`
(which leaves the slice empty) or an array of integer literals, with
surrounding whitespace; anything else is an error. -/
def goUnmarshalIntList (s : String) : Except GoError (List ℤ) :=
  match skipWS s.data with
  | 'n' :: 'u' :: 'l' :: 'l' :: rest =>
    if (skipWS rest).isEmpty then .ok []
    else .error "invalid character after top-level value"
  | '[' :: rest =>
    match skipWS rest with
    | ']' :: r =>
      if (skipWS r).isEmpty then .ok []
      else .error "invalid character after top-level value"
    | cs =>
      match parseIntElems (cs.length + 1) cs [] with
      | some (v, r) =>
        if (skipWS r).isEmpty then .ok v
        else .error "invalid character after top-level value"
      | none => .error "json: cannot unmarshal value into Go value of type []int"
  | _ => .error "json: cannot unmarshal value into Go value of type []int"

/-- The image header dimensions pair from types.go. -/
structure HeaderSize where
  Width : ℤ
  Height : ℤ
deriving DecidableEq

/-- Model of Go `fmt` `%v` rendering of an `[]int` value: elements
space-separated inside brackets. -/
def goSprintfVIntList (v : List ℤ) : String :=
  "[" ++ String.intercalate " " (v.map toString) ++ "]"

/-- Model of `HeaderSize.UnmarshalJSON` on the prior receiver `h`:
unmarshal the bytes as `[]int`; an empty result leaves the receiver
untouched, a length other than 2 is an error, and a 2-element array sets
width and height. -/
def headerSizeUnmarshalJSON (h : HeaderSize) (b : String) : Except GoError HeaderSize :=
  match goUnmarshalIntList b with
  | .error e => .error e
  | .ok v =>
    if v.length = 0 then .ok h
    else if v.length ≠ 2 then
      .error ("expected 2 element array, got " ++ toString v.length ++ " elements ("
        ++ goSprintfVIntList v ++ ")")
    else .ok ⟨v.getD 0 0, v.getD 1 0⟩

/-- Model of `HeaderSize.MarshalJSON`: `null` for a nil receiver, else
`fmt.Sprintf("[%d, %d]", h.Width, h.Height)`. -/
def headerSizeMarshalJSON : Option HeaderSize → String
  | none => "null"
  | some h => "[" ++ toString h.Width ++ ", " ++ toString h.Height ++ "]"

/-- Encode-after-decode composition for the `HeaderSize` codec starting
from a fresh (zero) receiver; the re-encoded receiver is non-nil, as in a
decode-then-encode round trip of a populated struct. -/
def headerRoundTrip (s : String) : Except GoError String :=
  (headerSizeUnmarshalJSON ⟨0, 0⟩ s).map (fun h => headerSizeMarshalJSON (some h))

/-- Voting attributes embedded in `Comment` and `Link` (types.go). -/
structure Votable where
  Ups : ℤ
  Downs : ℤ
  Likes : Bool

/-- Creation-time attributes embedded in several payloads (types.go).
The Go field `Created float64` is modelled as the lowercase `created`
field to keep the projection distinct from the type name. -/
structure Created where
  created : ℚ
  CreatedUTC : ℚ

/-- The `Account` payload (types.go). The embedded `Created` struct is
the `created` field. -/
structure Account where
  created : Created
  CommentKarma : ℤ
  HasMail : Bool
  HasModMail : Bool
  HasVerifiedEmail : Bool
  ID : String
  InboxCount : ℤ
  IsFriend : Bool
  IsGold : Bool
  IsMod : Bool
  LinkKarma : ℤ
  Modhash : String
  Name : String
  Over18 : Bool

/-- The `Message` payload (types.go). -/
structure Message where
  created : Created
  Author : String
  Body : String
  BodyHTML : String
  Context : String
  FirstMessage : String
  FirstMessageName : String
  Likes : Bool
  LinkTitle : String
  Name : String
  New : Bool
  ParentID : String
  Replies : String
  Subject : String
  Subreddit : String
  WasComment : Bool

/-- The `SubReddit` payload (types.go). `headerSize` models the Go field
`HeaderSize *HeaderSize` (a nil pointer is `none`). -/
structure SubReddit where
  AccountsActive : ℤ
  CommentScoreHideMins : ℤ
  Description : String
  DescriptionHTML : String
  DisplayName : String
  HeaderImg : String
  headerSize : Option HeaderSize
  HeaderTitle : String
  Over18 : Bool
  PublicDescription : String
  PublicTraffic : Bool
  Subscribers : ℤ
  SubmissionType : String
  SubmitLinkLabel : String
  SubmitTextLabel : String
  SubredditType : String
  Title : String
  URL : String
  UserIsBanned : Bool
  UserIsContributor : Bool
  UserIsModerator : Bool
  UserIsSubscriber : Bool

/-- The `Link` payload (types.go). `Media` and `MediaEmbed` are
`json.RawMessage`, modelled as the captured JSON value (`none` when the
field was never set). -/
structure Link where
  votable : Votable
  created : Created
  Author : String
  AuthorFlairCSSClass : String
  AuthorFlairText : String
  Clicked : Bool
  Domain : String
  Hidden : Bool
  IsSelf : Bool
  Likes : Bool
  LinkFlairCSSClass : String
  LinkFlairText : String
  Locked : Bool
  Media : Option JVal
  MediaEmbed : Option JVal
  NumComments : ℤ
  Over18 : Bool
  Permalink : String
  Saved : Bool
  Score : ℤ
  Selftext : String
  SelftextHTML : String
  Subreddit : String
  SubredditID : String
  Thumbnail : String
  Title : String
  URL : String
  edited : Edited
  Distinguished : String
  Stickied : Bool

/-- The `Comment` payload (types.go), parameterised by the entity type so
that the recursive `Replies []Thing` field can be tied off below. -/
structure CommentG (θ : Type) where
  votable : Votable
  created : Created
  ApprovedBy : String
  Author : String
  AuthorFlairCSSClass : String
  AuthorFlairText : String
  BannedBy : String
  Body : String
  BodyHTML : String
  edited : Edited
  Gilded : ℤ
  Likes : Bool
  LinkAuthor : String
  LinkID : String
  LinkTitle : String
  LinkURL : String
  NumReports : ℤ
  ParentID : String
  Replies : List θ
  Saved : Bool
  Score : ℤ
  ScoreHidden : Bool
  Subreddit : String
  SubredditID : String
  Distinguished : String

/-- The `Listing` page type (types.go), parameterised by the entity type
for the recursive `Children []Thing` field. -/
structure ListingG (θ : Type) where
  Before : String
  After : String
  Modhash : String
  Children : List θ

mutual

/-- The polymorphic envelope `Thing` (types.go): id, name, the kind
discriminator, and the decoded payload. -/
inductive Thing where
  | mk (ID : String) (Name : String) (Kind : String) (Data : ThingData)

/-- The possible values of `Thing.Data`. `empty` models the nil Go
`interface{}` of a zero `Thing`; each other constructor is the pointer to
the payload struct installed by `Thing.UnmarshalJSON` for one kind. -/
inductive ThingData where
  | empty
  | listing (l : ListingG Thing)
  | comment (c : CommentG Thing)
  | account (a : Account)
  | link (l : Link)
  | message (m : Message)
  | subReddit (s : SubReddit)

end

/-- A page of entities, as used by the decoder and the stream. -/
abbrev Listing := ListingG Thing

/-- A comment entity with its recursive replies. -/
abbrev Comment := CommentG Thing

/-- The `More` placeholder struct (types.go). It is declared by the
package but `Thing.UnmarshalJSON` has no case installing it, so no decode
ever produces it. -/
structure More where
  Children : List String

def Thing.ID : Thing → String
  | .mk i _ _ _ => i

def Thing.Name : Thing → String
  | .mk _ n _ _ => n

def Thing.Kind : Thing → String
  | .mk _ _ k _ => k

def Thing.Data : Thing → ThingData
  | .mk _ _ _ d => d

/-- The zero value of `Thing` (all fields at their Go zero values). -/
def Thing.zero : Thing := .mk "" "" "" .empty

/-- The zero value of `Votable`. -/
def Votable.zero : Votable := ⟨0, 0, false⟩

/-- The zero value of `Created`. -/
def Created.zero : Created := ⟨0, 0⟩

/-- The zero value of `Listing`. -/
def Listing.zero : Listing := ⟨"", "", "", []⟩

/-- The zero value of `Comment`. -/
def Comment.zero : Comment :=
  ⟨Votable.zero, Created.zero, "", "", "", "", "", "", "", ⟨0, false⟩, 0, false,
    "", "", "", "", 0, "", [], false, 0, false, "", "", ""⟩

/-- The zero value of `Account`. -/
def Account.zero : Account :=
  ⟨Created.zero, 0, false, false, false, "", 0, false, false, false, 0, "", "", false⟩

/-- The zero value of `Message`. -/
def Message.zero : Message :=
  ⟨Created.zero, "", "", "", "", "", "", false, "", "", false, "", "", "", "", false⟩

/-- The zero value of `SubReddit`. -/
def SubReddit.zero : SubReddit :=
  ⟨0, 0, "", "", "", "", none, "", false, "", false, 0, "", "", "", "", "", "",
    false, false, false, false⟩

/-- The zero value of `Link`. -/
def Link.zero : Link :=
  ⟨Votable.zero, Created.zero, "", "", "", false, "", false, false, false, "", "",
    false, none, none, 0, false, "", false, 0, "", "", "", "", "", "", "",
    ⟨0, false⟩, "", false⟩

/-- Decode a JSON value into a Go `string` field: strings assign, `null`
leaves the field unchanged, anything else is a type error. -/
def decStr (cur : String) : JVal → Except GoError String
  | .str s => .ok s
  | .null => .ok cur
  | _ => .error "json: cannot unmarshal value into Go field of type string"

/-- Decode a JSON value into a Go `int` (or `int64`) field: integral
numbers assign, `null` leaves the field unchanged, anything else
errors. -/
def decInt (cur : ℤ) : JVal → Except GoError ℤ
  | .num q =>
    if q.den = 1 then .ok q.num
    else .error "json: cannot unmarshal number into Go field of type int"
  | .null => .ok cur
  | _ => .error "json: cannot unmarshal value into Go field of type int"

/-- Decode a JSON value into a Go `bool` field. -/
def decBool (cur : Bool) : JVal → Except GoError Bool
  | .bool b => .ok b
  | .null => .ok cur
  | _ => .error "json: cannot unmarshal value into Go field of type bool"

/-- Decode a JSON value into a Go `float64` field. -/
def decFloat (cur : ℚ) : JVal → Except GoError ℚ
  | .num q => .ok q
  | .null => .ok cur
  | _ => .error "json: cannot unmarshal value into Go field of type float64"

/-- Decode a JSON value into a `json.RawMessage` field: any value,
including `null`, is captured verbatim. -/
def decRaw (_cur : Option JVal) (v : JVal) : Except GoError (Option JVal) :=
  .ok (some v)

/-- The `Edited` codec applied to the raw bytes of a field value, at the
parsed-value level: only the bytes `false` equal the literal checked by
`Edited.UnmarshalJSON`, and among the remaining JSON values exactly the
numeric tokens are accepted by `strconv.ParseFloat`. -/
def decEditedField (_cur : Edited) : JVal → Except GoError Edited
  | .bool false => .ok ⟨0, false⟩
  | .num q => .ok ⟨q, true⟩
  | _ => .error "strconv.ParseFloat: invalid syntax"

/-- Decode a list of JSON values as the elements of a Go `[]int`. -/
def decIntElems : List JVal → Except GoError (List ℤ)
  | [] => .ok []
  | .num q :: rest =>
    if q.den = 1 then (decIntElems rest).map (fun xs => q.num :: xs)
    else .error "json: cannot unmarshal number into Go value of type int"
  | _ :: _ => .error "json: cannot unmarshal value into Go value of type int"

/-- The `HeaderSize` codec applied to the raw bytes of a field value, at
the parsed-value level. A nil pointer receiver gets a fresh zero
`HeaderSize` allocated before `HeaderSize.UnmarshalJSON` runs, and the
unmarshaler also receives a literal `null` (whose `[]int` unmarshal
leaves the slice empty, so the receiver is kept). -/
def decHeaderSizeField (cur : Option HeaderSize) (v : JVal) : Except GoError (Option HeaderSize) :=
  let recv := cur.getD ⟨0, 0⟩
  match v with
  | .null => .ok (some recv)
  | .arr es =>
    match decIntElems es with
    | .error e => .error e
    | .ok xs =>
      if xs.length = 0 then .ok (some recv)
      else if xs.length ≠ 2 then
        .error ("expected 2 element array, got " ++ toString xs.length ++ " elements ("
          ++ goSprintfVIntList xs ++ ")")
      else .ok (some ⟨xs.getD 0 0, xs.getD 1 0⟩)
  | _ => .error "json: cannot unmarshal value into Go value of type []int"

/-- Decode one object key into an `Account` (unknown keys are ignored,
as `encoding/json` does). -/
def decodeAccountField (a : Account) (k : String) (v : JVal) : Except GoError Account :=
  if k = "created" then (decFloat a.created.created v).map (fun x => {a with created.created := x})
  else if k = "created_utc" then (decFloat a.created.CreatedUTC v).map (fun x => {a with created.CreatedUTC := x})
  else if k = "comment_karma" then (decInt a.CommentKarma v).map (fun x => {a with CommentKarma := x})
  else if k = "has_mail" then (decBool a.HasMail v).map (fun x => {a with HasMail := x})
  else if k = "has_mod_mail" then (decBool a.HasModMail v).map (fun x => {a with HasModMail := x})
  else if k = "has_verified_email" then (decBool a.HasVerifiedEmail v).map (fun x => {a with HasVerifiedEmail := x})
  else if k = "id" then (decStr a.ID v).map (fun x => {a with ID := x})
  else if k = "inbox_count" then (decInt a.InboxCount v).map (fun x => {a with InboxCount := x})
  else if k = "is_friend" then (decBool a.IsFriend v).map (fun x => {a with IsFriend := x})
  else if k = "is_gold" then (decBool a.IsGold v).map (fun x => {a with IsGold := x})
  else if k = "is_mod" then (decBool a.IsMod v).map (fun x => {a with IsMod := x})
  else if k = "link_karma" then (decInt a.LinkKarma v).map (fun x => {a with LinkKarma := x})
  else if k = "modhash" then (decStr a.Modhash v).map (fun x => {a with Modhash := x})
  else if k = "name" then (decStr a.Name v).map (fun x => {a with Name := x})
  else if k = "over_18" then (decBool a.Over18 v).map (fun x => {a with Over18 := x})
  else .ok a

/-- Fold `encoding/json`'s key-by-key object decoding over an `Account`. -/
def decodeAccountFields : Account → List (String × JVal) → Except GoError Account
  | a, [] => .ok a
  | a, (k, v) :: rest => do
    let a2 ← decodeAccountField a k v
    decodeAccountFields a2 rest

/-- Model of `json.Unmarshal` into a fresh `*Account`. -/
def decodeAccount : JVal → Except GoError Account
  | .null => .ok Account.zero
  | .obj fs => decodeAccountFields Account.zero fs
  | _ => .error "json: cannot unmarshal value into Go value of type Account"

/-- Decode one object key into a `Message`. -/
def decodeMessageField (m : Message) (k : String) (v : JVal) : Except GoError Message :=
  if k = "created" then (decFloat m.created.created v).map (fun x => {m with created.created := x})
  else if k = "created_utc" then (decFloat m.created.CreatedUTC v).map (fun x => {m with created.CreatedUTC := x})
  else if k = "author" then (decStr m.Author v).map (fun x => {m with Author := x})
  else if k = "body" then (decStr m.Body v).map (fun x => {m with Body := x})
  else if k = "body_html" then (decStr m.BodyHTML v).map (fun x => {m with BodyHTML := x})
  else if k = "context" then (decStr m.Context v).map (fun x => {m with Context := x})
  else if k = "first_message" then (decStr m.FirstMessage v).map (fun x => {m with FirstMessage := x})
  else if k = "first_message_name" then (decStr m.FirstMessageName v).map (fun x => {m with FirstMessageName := x})
  else if k = "likes" then (decBool m.Likes v).map (fun x => {m with Likes := x})
  else if k = "link_title" then (decStr m.LinkTitle v).map (fun x => {m with LinkTitle := x})
  else if k = "name" then (decStr m.Name v).map (fun x => {m with Name := x})
  else if k = "new" then (decBool m.New v).map (fun x => {m with New := x})
  else if k = "parent_id" then (decStr m.ParentID v).map (fun x => {m with ParentID := x})
  else if k = "replies" then (decStr m.Replies v).map (fun x => {m with Replies := x})
  else if k = "subject" then (decStr m.Subject v).map (fun x => {m with Subject := x})
  else if k = "subreddit" then (decStr m.Subreddit v).map (fun x => {m with Subreddit := x})
  else if k = "was_comment" then (decBool m.WasComment v).map (fun x => {m with WasComment := x})
  else .ok m

/-- Fold object decoding over a `Message`. -/
def decodeMessageFields : Message → List (String × JVal) → Except GoError Message
  | m, [] => .ok m
  | m, (k, v) :: rest => do
    let m2 ← decodeMessageField m k v
    decodeMessageFields m2 rest

/-- Model of `json.Unmarshal` into a fresh `*Message`. -/
def decodeMessage : JVal → Except GoError Message
  | .null => .ok Message.zero
  | .obj fs => decodeMessageFields Message.zero fs
  | _ => .error "json: cannot unmarshal value into Go value of type Message"

/-- Decode one object key into a `SubReddit`. -/
def decodeSubRedditField (s : SubReddit) (k : String) (v : JVal) : Except GoError SubReddit :=
  if k = "accounts_active" then (decInt s.AccountsActive v).map (fun x => {s with AccountsActive := x})
  else if k = "comment_score_hide_mins" then (decInt s.CommentScoreHideMins v).map (fun x => {s with CommentScoreHideMins := x})
  else if k = "description" then (decStr s.Description v).map (fun x => {s with Description := x})
  else if k = "description_html" then (decStr s.DescriptionHTML v).map (fun x => {s with DescriptionHTML := x})
  else if k = "display_name" then (decStr s.DisplayName v).map (fun x => {s with DisplayName := x})
  else if k = "header_img" then (decStr s.HeaderImg v).map (fun x => {s with HeaderImg := x})
  else if k = "header_size" then (decHeaderSizeField s.headerSize v).map (fun x => {s with headerSize := x})
  else if k = "header_title" then (decStr s.HeaderTitle v).map (fun x => {s with HeaderTitle := x})
  else if k = "over18" then (decBool s.Over18 v).map (fun x => {s with Over18 := x})
  else if k = "public_description" then (decStr s.PublicDescription v).map (fun x => {s with PublicDescription := x})
  else if k = "public_traffic" then (decBool s.PublicTraffic v).map (fun x => {s with PublicTraffic := x})
  else if k = "subscribers" then (decInt s.Subscribers v).map (fun x => {s with Subscribers := x})
  else if k = "submission_type" then (decStr s.SubmissionType v).map (fun x => {s with SubmissionType := x})
  else if k = "submit_link_label" then (decStr s.SubmitLinkLabel v).map (fun x => {s with SubmitLinkLabel := x})
  else if k = "submit_text_label" then (decStr s.SubmitTextLabel v).map (fun x => {s with SubmitTextLabel := x})
  else if k = "subreddit_type" then (decStr s.SubredditType v).map (fun x => {s with SubredditType := x})
  else if k = "title" then (decStr s.Title v).map (fun x => {s with Title := x})
  else if k = "url" then (decStr s.URL v).map (fun x => {s with URL := x})
  else if k = "user_is_banned" then (decBool s.UserIsBanned v).map (fun x => {s with UserIsBanned := x})
  else if k = "user_is_contributor" then (decBool s.UserIsContributor v).map (fun x => {s with UserIsContributor := x})
  else if k = "user_is_moderator" then (decBool s.UserIsModerator v).map (fun x => {s with UserIsModerator := x})
  else if k = "user_is_subscriber" then (decBool s.UserIsSubscriber v).map (fun x => {s with UserIsSubscriber := x})
  else .ok s

/-- Fold object decoding over a `SubReddit`. -/
def decodeSubRedditFields : SubReddit → List (String × JVal) → Except GoError SubReddit
  | s, [] => .ok s
  | s, (k, v) :: rest => do
    let s2 ← decodeSubRedditField s k v
    decodeSubRedditFields s2 rest

/-- Model of `json.Unmarshal` into a fresh `*SubReddit`. -/
def decodeSubReddit : JVal → Except GoError SubReddit
  | .null => .ok SubReddit.zero
  | .obj fs => decodeSubRedditFields SubReddit.zero fs
  | _ => .error "json: cannot unmarshal value into Go value of type SubReddit"

/-- Decode one object key into a `Link`. The key `likes` binds to the
`Link.Likes` field, which shadows the embedded `Votable.Likes` at a
greater depth, exactly as `encoding/json` resolves the conflict. -/
def decodeLinkField (l : Link) (k : String) (v : JVal) : Except GoError Link :=
  if k = "ups" then (decInt l.votable.Ups v).map (fun x => {l with votable.Ups := x})
  else if k = "downs" then (decInt l.votable.Downs v).map (fun x => {l with votable.Downs := x})
  else if k = "likes" then (decBool l.Likes v).map (fun x => {l with Likes := x})
  else if k = "created" then (decFloat l.created.created v).map (fun x => {l with created.created := x})
  else if k = "created_utc" then (decFloat l.created.CreatedUTC v).map (fun x => {l with created.CreatedUTC := x})
  else if k = "author" then (decStr l.Author v).map (fun x => {l with Author := x})
  else if k = "author_flair_css_class" then (decStr l.AuthorFlairCSSClass v).map (fun x => {l with AuthorFlairCSSClass := x})
  else if k = "author_flair_text" then (decStr l.AuthorFlairText v).map (fun x => {l with AuthorFlairText := x})
  else if k = "clicked" then (decBool l.Clicked v).map (fun x => {l with Clicked := x})
  else if k = "domain" then (decStr l.Domain v).map (fun x => {l with Domain := x})
  else if k = "hidden" then (decBool l.Hidden v).map (fun x => {l with Hidden := x})
  else if k = "is_self" then (decBool l.IsSelf v).map (fun x => {l with IsSelf := x})
  else if k = "link_flair_css_class" then (decStr l.LinkFlairCSSClass v).map (fun x => {l with LinkFlairCSSClass := x})
  else if k = "link_flair_text" then (decStr l.LinkFlairText v).map (fun x => {l with LinkFlairText := x})
  else if k = "locked" then (decBool l.Locked v).map (fun x => {l with Locked := x})
  else if k = "media" then (decRaw l.Media v).map (fun x => {l with Media := x})
  else if k = "media_embed" then (decRaw l.MediaEmbed v).map (fun x => {l with MediaEmbed := x})
  else if k = "num_comments" then (decInt l.NumComments v).map (fun x => {l with NumComments := x})
  else if k = "over_18" then (decBool l.Over18 v).map (fun x => {l with Over18 := x})
  else if k = "permalink" then (decStr l.Permalink v).map (fun x => {l with Permalink := x})
  else if k = "saved" then (decBool l.Saved v).map (fun x => {l with Saved := x})
  else if k = "score" then (decInt l.Score v).map (fun x => {l with Score := x})
  else if k = "selftext" then (decStr l.Selftext v).map (fun x => {l with Selftext := x})
  else if k = "selftext_html" then (decStr l.SelftextHTML v).map (fun x => {l with SelftextHTML := x})
  else if k = "subreddit" then (decStr l.Subreddit v).map (fun x => {l with Subreddit := x})
  else if k = "subreddit_id" then (decStr l.SubredditID v).map (fun x => {l with SubredditID := x})
  else if k = "thumbnail" then (decStr l.Thumbnail v).map (fun x => {l with Thumbnail := x})
  else if k = "title" then (decStr l.Title v).map (fun x => {l with Title := x})
  else if k = "url" then (decStr l.URL v).map (fun x => {l with URL := x})
  else if k = "edited" then (decEditedField l.edited v).map (fun x => {l with edited := x})
  else if k = "distinguished" then (decStr l.Distinguished v).map (fun x => {l with Distinguished := x})
  else if k = "stickied" then (decBool l.Stickied v).map (fun x => {l with Stickied := x})
  else .ok l

/-- Fold object decoding over a `Link`. -/
def decodeLinkFields : Link → List (String × JVal) → Except GoError Link
  | l, [] => .ok l
  | l, (k, v) :: rest => do
    let l2 ← decodeLinkField l k v
    decodeLinkFields l2 rest

/-- Model of `json.Unmarshal` into a fresh `*Link`. -/
def decodeLink : JVal → Except GoError Link
  | .null => .ok Link.zero
  | .obj fs => decodeLinkFields Link.zero fs
  | _ => .error "json: cannot unmarshal value into Go value of type Link"

/-- The intermediate `thingJSON` struct of types.go: the envelope with
its `data` left as a raw message. `Data = none` models the nil
`json.RawMessage` of a `thingJSON` whose `data` key never appeared. -/
structure ThingJSON where
  ID : String
  Name : String
  Kind : String
  Data : Option JVal

/-- The zero value of `thingJSON`. -/
def ThingJSON.zero : ThingJSON := ⟨"", "", "", none⟩

/-- Decode one object key of the envelope. A `data` key captures its raw
value whatever it is (`json.RawMessage` accepts anything, `null`
included). -/
def decodeThingJSONField (j : ThingJSON) (k : String) (v : JVal) : Except GoError ThingJSON :=
  if k = "id" then (decStr j.ID v).map (fun x => {j with ID := x})
  else if k = "name" then (decStr j.Name v).map (fun x => {j with Name := x})
  else if k = "kind" then (decStr j.Kind v).map (fun x => {j with Kind := x})
  else if k = "data" then .ok {j with Data := some v}
  else .ok j

/-- Fold object decoding over a `thingJSON`. -/
def decodeThingJSONFields : ThingJSON → List (String × JVal) → Except GoError ThingJSON
  | j, [] => .ok j
  | j, (k, v) :: rest => do
    let j2 ← decodeThingJSONField j k v
    decodeThingJSONFields j2 rest

/-- Model of `json.Unmarshal(b, &j)` for the `thingJSON` envelope. -/
def decodeThingJSONv : JVal → Except GoError ThingJSON
  | .null => .ok ThingJSON.zero
  | .obj fs => decodeThingJSONFields ThingJSON.zero fs
  | _ => .error "json: cannot unmarshal value into Go value of type thingJSON"

/-- Decode one non-recursive object key into a `Comment`. The key
`likes` binds to the `Comment.Likes` field, which shadows the embedded
`Votable.Likes` at a greater depth, exactly as `encoding/json` resolves
the conflict. -/
def decodeCommentField (c : Comment) (k : String) (v : JVal) : Except GoError Comment :=
  if k = "ups" then (decInt c.votable.Ups v).map (fun x => {c with votable.Ups := x})
  else if k = "downs" then (decInt c.votable.Downs v).map (fun x => {c with votable.Downs := x})
  else if k = "likes" then (decBool c.Likes v).map (fun x => {c with Likes := x})
  else if k = "created" then (decFloat c.created.created v).map (fun x => {c with created.created := x})
  else if k = "created_utc" then (decFloat c.created.CreatedUTC v).map (fun x => {c with created.CreatedUTC := x})
  else if k = "approved_by" then (decStr c.ApprovedBy v).map (fun x => {c with ApprovedBy := x})
  else if k = "author" then (decStr c.Author v).map (fun x => {c with Author := x})
  else if k = "author_flair_css_class" then (decStr c.AuthorFlairCSSClass v).map (fun x => {c with AuthorFlairCSSClass := x})
  else if k = "author_flair_text" then (decStr c.AuthorFlairText v).map (fun x => {c with AuthorFlairText := x})
  else if k = "banned_by" then (decStr c.BannedBy v).map (fun x => {c with BannedBy := x})
  else if k = "body" then (decStr c.Body v).map (fun x => {c with Body := x})
  else if k = "body_html" then (decStr c.BodyHTML v).map (fun x => {c with BodyHTML := x})
  else if k = "edited" then (decEditedField c.edited v).map (fun x => {c with edited := x})
  else if k = "gilded" then (decInt c.Gilded v).map (fun x => {c with Gilded := x})
  else if k = "link_author" then (decStr c.LinkAuthor v).map (fun x => {c with LinkAuthor := x})
  else if k = "link_id" then (decStr c.LinkID v).map (fun x => {c with LinkID := x})
  else if k = "link_title" then (decStr c.LinkTitle v).map (fun x => {c with LinkTitle := x})
  else if k = "link_url" then (decStr c.LinkURL v).map (fun x => {c with LinkURL := x})
  else if k = "num_reports" then (decInt c.NumReports v).map (fun x => {c with NumReports := x})
  else if k = "parent_id" then (decStr c.ParentID v).map (fun x => {c with ParentID := x})
  else if k = "saved" then (decBool c.Saved v).map (fun x => {c with Saved := x})
  else if k = "score" then (decInt c.Score v).map (fun x => {c with Score := x})
  else if k = "score_hidden" then (decBool c.ScoreHidden v).map (fun x => {c with ScoreHidden := x})
  else if k = "subreddit" then (decStr c.Subreddit v).map (fun x => {c with Subreddit := x})
  else if k = "subreddit_id" then (decStr c.SubredditID v).map (fun x => {c with SubredditID := x})
  else if k = "distinguished" then (decStr c.Distinguished v).map (fun x => {c with Distinguished := x})
  else .ok c

mutual

/-- Executable size of a JSON value, used as the decoder's fuel bound. -/
def JVal.size : JVal → ℕ
  | .null => 1
  | .bool _ => 1
  | .num _ => 1
  | .str _ => 1
  | .arr es => 1 + JVal.sizeList es
  | .obj fs => 1 + JVal.sizeFields fs

/-- Summed size of a list of JSON values. -/
def JVal.sizeList : List JVal → ℕ
  | [] => 0
  | x :: xs => 1 + JVal.size x + JVal.sizeList xs

/-- Summed size of a list of JSON object fields. -/
def JVal.sizeFields : List (String × JVal) → ℕ
  | [] => 0
  | (_, v) :: fs => 1 + JVal.size v + JVal.sizeFields fs

end

mutual

/-- Model of `Thing.UnmarshalJSON` on a fresh receiver: unmarshal the
envelope into `thingJSON`, dispatch on the `kind` discriminator to select
the payload variant (an unrecognized kind is the error
`unsupported kind: <kind>`), then unmarshal the raw `data` into the
selected variant (a nil raw message is the library's
`unexpected end of JSON input` error). Recursion is bounded by a fuel
argument; every recursive call both consumes one unit of fuel and
descends to a structurally smaller value, so a fuel of `sizeOf v + 1`
(used by the wrapper below) always suffices. -/
def decodeThingF : ℕ → JVal → Except GoError Thing
  | 0, _ => .error "decoder fuel exhausted"
  | fuel + 1, v =>
    match decodeThingJSONv v with
    | .error e => .error e
    | .ok j =>
      if j.Kind = "Listing" then
        match j.Data with
        | none => .error "unexpected end of JSON input"
        | some dv => (decodeListingF fuel dv).map (fun l => .mk j.ID j.Name j.Kind (.listing l))
      else if j.Kind = "t1" then
        match j.Data with
        | none => .error "unexpected end of JSON input"
        | some dv => (decodeCommentF fuel dv).map (fun c => .mk j.ID j.Name j.Kind (.comment c))
      else if j.Kind = "t2" then
        match j.Data with
        | none => .error "unexpected end of JSON input"
        | some dv => (decodeAccount dv).map (fun a => .mk j.ID j.Name j.Kind (.account a))
      else if j.Kind = "t3" then
        match j.Data with
        | none => .error "unexpected end of JSON input"
        | some dv => (decodeLink dv).map (fun l => .mk j.ID j.Name j.Kind (.link l))
      else if j.Kind = "t4" then
        match j.Data with
        | none => .error "unexpected end of JSON input"
        | some dv => (decodeMessage dv).map (fun m => .mk j.ID j.Name j.Kind (.message m))
      else if j.Kind = "t5" then
        match j.Data with
        | none => .error "unexpected end of JSON input"
        | some dv => (decodeSubReddit dv).map (fun s => .mk j.ID j.Name j.Kind (.subReddit s))
      else .error ("unsupported kind: " ++ j.Kind)

/-- Model of `json.Unmarshal` into a fresh `*Listing`. -/
def decodeListingF : ℕ → JVal → Except GoError Listing
  | 0, _ => .error "decoder fuel exhausted"
  | fuel + 1, v =>
    match v with
    | .null => .ok Listing.zero
    | .obj fs => decodeListingFieldsF fuel Listing.zero fs
    | _ => .error "json: cannot unmarshal value into Go value of type Listing"

/-- Fold object decoding over a `Listing`; the `children` key decodes a
recursive `[]Thing`. -/
def decodeListingFieldsF : ℕ → Listing → List (String × JVal) → Except GoError Listing
  | 0, _, _ => .error "decoder fuel exhausted"
  | _ + 1, l, [] => .ok l
  | fuel + 1, l, (k, v) :: rest =>
    if k = "before" then
      match decStr l.Before v with
      | .error e => .error e
      | .ok x => decodeListingFieldsF fuel {l with Before := x} rest
    else if k = "after" then
      match decStr l.After v with
      | .error e => .error e
      | .ok x => decodeListingFieldsF fuel {l with After := x} rest
    else if k = "modhash" then
      match decStr l.Modhash v with
      | .error e => .error e
      | .ok x => decodeListingFieldsF fuel {l with Modhash := x} rest
    else if k = "children" then
      match decodeThingListField fuel l.Children v with
      | .error e => .error e
      | .ok x => decodeListingFieldsF fuel {l with Children := x} rest
    else decodeListingFieldsF fuel l rest

/-- Decode a JSON value into a `[]Thing` field: `null` sets the slice to
nil, an array decodes its elements in order into fresh `Thing`s, anything
else errors. -/
def decodeThingListField : ℕ → List Thing → JVal → Except GoError (List Thing)
  | 0, _, _ => .error "decoder fuel exhausted"
  | _ + 1, _, .null => .ok []
  | fuel + 1, _, .arr es => decodeThingsF fuel es
  | _ + 1, _, _ => .error "json: cannot unmarshal value into Go value of type []Thing"

/-- Decode the elements of a JSON array into `Thing`s, each through the
custom `Thing.UnmarshalJSON`, aborting at the first element error. -/
def decodeThingsF : ℕ → List JVal → Except GoError (List Thing)
  | 0, _ => .error "decoder fuel exhausted"
  | _ + 1, [] => .ok []
  | fuel + 1, x :: xs =>
    match decodeThingF fuel x with
    | .error e => .error e
    | .ok t =>
      match decodeThingsF fuel xs with
      | .error e => .error e
      | .ok ts => .ok (t :: ts)

/-- Model of `json.Unmarshal` into a fresh `*Comment`. -/
def decodeCommentF : ℕ → JVal → Except GoError Comment
  | 0, _ => .error "decoder fuel exhausted"
  | fuel + 1, v =>
    match v with
    | .null => .ok Comment.zero
    | .obj fs => decodeCommentFieldsF fuel Comment.zero fs
    | _ => .error "json: cannot unmarshal value into Go value of type Comment"

/-- Fold object decoding over a `Comment`; the `replies` key decodes a
recursive `[]Thing`. -/
def decodeCommentFieldsF : ℕ → Comment → List (String × JVal) → Except GoError Comment
  | 0, _, _ => .error "decoder fuel exhausted"
  | _ + 1, c, [] => .ok c
  | fuel + 1, c, (k, v) :: rest =>
    if k = "replies" then
      match decodeThingListField fuel c.Replies v with
      | .error e => .error e
      | .ok x => decodeCommentFieldsF fuel {c with Replies := x} rest
    else
      match decodeCommentField c k v with
      | .error e => .error e
      | .ok c2 => decodeCommentFieldsF fuel c2 rest

end

/-- Model of the exported behaviour of `Thing.UnmarshalJSON`: given the
prior receiver `t` and the parsed input value `v`, return the new
receiver together with the returned error. All four receiver fields are
assigned simultaneously on the all-success path only (types.go line 51);
every error path returns the receiver untouched. -/
def thingUnmarshalJSON (t : Thing) (v : JVal) : Thing × Option GoError :=
  match decodeThingF (JVal.size v + 1) v with
  | .ok t2 => (t2, none)
  | .error e => (t, some e)

/-- Fresh-receiver decode, the `decode(raw bytes) -> Entity | DecodeError`
contract of the envelope decoder. -/
def decodeThing (v : JVal) : Except GoError Thing :=
  decodeThingF (JVal.size v + 1) v

/-- The mutable paging parameters of auth.go (`ListingOptions`), the
page-request descriptor shared between the caller and the stream. -/
structure ListingOptions where
  After : String
  Before : String
  Count : ℤ
  Limit : ℤ
  Show : String
deriving DecidableEq

/-- The zero `ListingOptions`. -/
def ListingOptions.zero : ListingOptions := ⟨"", "", 0, 0, ""⟩

/-- The state of a `Stream` (auth.go): the lister's descriptor, the
cached current `Listing`, the index into it, and the terminal error. The
`fetched` counter indexes the injected transport's response sequence,
mirroring the counter of the repository's own test double for `doer`. -/
structure StreamState where
  opts : ListingOptions
  listing : Listing
  index : ℤ
  err : Option GoError
  fetched : ℕ

/-- Model of `Stream.indexValid`. -/
def indexValid (s : StreamState) : Bool :=
  decide (0 ≤ s.index) && decide (s.index < (s.listing.Children.length : ℤ))

/-- The outcome of one `Stream.Next` call: the returned boolean and the
new stream state, or the Go runtime panic raised by the type assertion
`t.Data.(*Listing)` when a fetched entity is not a listing. -/
inductive NextResult where
  | ret (b : Bool) (s : StreamState)
  | crash

/-- The statement `if s.indexValid() { s.index++ }` of `Stream.Next`. -/
def bump (s : StreamState) : StreamState :=
  if indexValid s then {s with index := s.index + 1} else s

/-- The state right before the fetch in `Stream.Next`, after
`s.lister.List().After = s.listing.After` wrote the continuation token
into the descriptor (applied to the bumped state). -/
def toFetch (s : StreamState) : StreamState :=
  {bump s with opts.After := (bump s).listing.After}

/-- The state after a successful fetch of page `l` in `Stream.Next`:
index reset to 0, no error, cached listing replaced, one more response
consumed, and the descriptor's `Count` incremented by the number of
entities just received. -/
def afterFetch (s : StreamState) (l : Listing) : StreamState :=
  {toFetch s with
    index := 0, err := none, listing := l, fetched := (toFetch s).fetched + 1,
    opts.Count := (toFetch s).opts.Count + l.Children.length}

/-- Model of `Stream.Next`. `urlOf` is the lister's `URL()` method as a
function of the descriptor; `fetch` is the injected authenticated GET
combined with the entity decode (`Config.Get` into a `Thing`), consuming
one response per call in sequence. Mirrors auth.go lines 134-162:
terminal error short-circuits; a valid index is advanced and served from
cache; an exhausted page with no continuation token (once anything was
fetched) ends iteration; otherwise the continuation token is written into
the descriptor, a URL is built, one page is fetched (setting `index` to 0
and recording any error), the cached listing is replaced and the
descriptor's `Count` is incremented by the page size. -/
def next (urlOf : ListingOptions → Except GoError String)
    (fetch : ℕ → Except GoError Thing) (s : StreamState) : NextResult :=
  if s.err.isSome then .ret false s
  else if indexValid (bump s) then .ret true (bump s)
  else if (bump s).listing.After = "" ∧ (bump s).index ≠ -1 then .ret false (bump s)
  else
    match urlOf (toFetch s).opts with
    | .error e => .ret false {toFetch s with err := some e}
    | .ok _url =>
      match fetch (toFetch s).fetched with
      | .error e =>
        .ret false {toFetch s with
          index := 0, err := some e, fetched := (toFetch s).fetched + 1}
      | .ok t =>
        match t.Data with
        | .listing l => .ret (indexValid (afterFetch s l)) (afterFetch s l)
        | _ => .crash

/-- Model of `Stream.Thing`: the current entity while positioned, else
the zero `Thing`. -/
def streamThing (s : StreamState) : Thing :=
  if s.err.isNone && indexValid s then s.listing.Children.getD s.index.toNat Thing.zero
  else Thing.zero

/-- Model of `Stream.Error`. -/
def streamError (s : StreamState) : Option GoError := s.err

/-- Model of `Config.Stream`: a fresh stream over the given descriptor,
with `index = -1`, no cached listing and no error. -/
def streamInit (opts : ListingOptions) : StreamState :=
  { opts := opts, listing := Listing.zero, index := -1, err := none, fetched := 0 }

/-- The state after one `Next` call (a crash has no observable
post-state and keeps the prior one). -/
def nextState (urlOf : ListingOptions → Except GoError String)
    (fetch : ℕ → Except GoError Thing) (s : StreamState) : StreamState :=
  match next urlOf fetch s with
  | .ret _ s2 => s2
  | .crash => s

/-- Iterate `Next` a fixed number of times. -/
def iterStream (urlOf : ListingOptions → Except GoError String)
    (fetch : ℕ → Except GoError Thing) : ℕ → StreamState → StreamState
  | 0, s => s
  | n + 1, s => iterStream urlOf fetch n (nextState urlOf fetch s)

/-- Run the consumer loop `for stream.Next() { stream.Thing() }` for at
most `n` calls to `Next`, collecting the entity surfaced after each call
that returned true and stopping at the first false (or crash). Returns
the collected entities and the final state. -/
def collectN (urlOf : ListingOptions → Except GoError String)
    (fetch : ℕ → Except GoError Thing) : ℕ → StreamState → List Thing × StreamState
  | 0, s => ([], s)
  | n + 1, s =>
    match next urlOf fetch s with
    | .ret true s2 =>
      let r := collectN urlOf fetch n s2
      (streamThing s2 :: r.1, r.2)
    | .ret false s2 => ([], s2)
    | .crash => ([], s)

/-- A URL builder that always succeeds, as `TopPosts.URL` does on every
descriptor (`query.Values` cannot fail on the `TopPosts` struct). -/
def urlConst : ListingOptions → Except GoError String := fun _ => .ok "u"

/-- Wrap a `Listing` page as the decoded `Thing` that `Config.Get`
produces for a listing response. -/
def listingThing (l : Listing) : Thing := .mk "" "" "Listing" (.listing l)

/-- A three-page fetch sequence: the transport serves `p1`, `p2`, `p3`
for the first three fetches and fails afterwards (the repository's test
double likewise errors once its expected responses run out). -/
def oracle3 (p1 p2 p3 : Listing) : ℕ → Except GoError Thing :=
  fun n =>
    if n = 0 then .ok (listingThing p1)
    else if n = 1 then .ok (listingThing p2)
    else if n = 2 then .ok (listingThing p3)
    else .error "unexpected request received: all responses finished (3 present)"

/-- C4 counterexample: the fixed-size-pair codec does not round-trip the
empty array — decoding `[]` succeeds with the zero pair, but re-encoding
that pair produces `[0, 0]`, which is not byte-equivalent to `[]`. -/
theorem headerRoundTrip_empty_not_identity :
    headerRoundTrip "[]" = .ok "[0, 0]" ∧ ("[0, 0]" : String) ≠ "[]" := by
  constructor
  · rfl
  · decide

/-- C4 (amended): encode-after-decode reproduces the input only on the
Edited codec's `false` branch and on pair inputs already in the encoder's
own rendering `[w, h]`; the empty-array and `null` pair inputs re-encode
as `[0, 0]`, and every edited-branch timestamp re-encodes as the fmt
bad-verb token `%!d(float64=...)` rather than a number. -/
theorem codecs_roundTrip_partial :
    editedRoundTrip "false" = .ok "false" ∧
    headerRoundTrip "[1, 2]" = .ok "[1, 2]" ∧
    headerRoundTrip "[-3, 17]" = .ok "[-3, 17]" ∧
    headerRoundTrip "[]" = .ok "[0, 0]" ∧
    headerRoundTrip "null" = .ok "[0, 0]" ∧
    editedRoundTrip "1.5" ≠ .ok "1.5" ∧
    ∀ q, editedMarshalJSON ⟨q, true⟩ = "%!d(float64=" ++ goFloatVerbV q ++ ")" := by
  refine ⟨rfl, rfl, rfl, rfl, rfl, by decide, fun q => rfl⟩

/-- C5: evaluating `Edited.MarshalJSON` at an edited value: the `%d` verb
applied to the `float64` field yields the fmt bad-verb token starting
with `%!d(`, not the bare integer-string number the spec describes, while
both decode directions and the not-edited encode behave as specified. -/
theorem editedMarshal_integerVerb_bug :
    editedMarshalJSON ⟨1234567890, true⟩ ≠ "1234567890" ∧
    (editedMarshalJSON ⟨1234567890, true⟩).take 4 = "%!d(" ∧
    editedUnmarshalJSON "1234567890" = .ok ⟨1234567890, true⟩ ∧
    editedUnmarshalJSON "false" = .ok ⟨0, false⟩ ∧
    editedMarshalJSON ⟨0, false⟩ = "false" := by
  refine ⟨by decide, by decide, by decide, rfl, rfl⟩

/-- C6: decoding the fixed-size-pair field from a parsed numeric array
whose length is neither 0 nor 2 fails with a decode error, while an empty
array (and in particular the literal `[]`) succeeds and leaves the
receiver at its value — the zero pair on a fresh decode — and the literal
`[1, 2, 3]` fails. -/
theorem headerSize_wrongLength_and_empty (h : HeaderSize) :
    (∀ s l, goUnmarshalIntList s = .ok l → l.length ≠ 0 → l.length ≠ 2 →
      ∃ e, headerSizeUnmarshalJSON h s = .error e) ∧
    (∀ s, goUnmarshalIntList s = .ok [] → headerSizeUnmarshalJSON h s = .ok h) ∧
    (∃ e, headerSizeUnmarshalJSON ⟨0, 0⟩ "[1, 2, 3]" = .error e) ∧
    headerSizeUnmarshalJSON ⟨0, 0⟩ "[]" = .ok ⟨0, 0⟩ := by
  refine ⟨?_, ?_, ⟨"expected 2 element array, got 3 elements ([1 2 3])", rfl⟩, rfl⟩
  · intro s l hp h0 h2
    unfold headerSizeUnmarshalJSON
    rw [hp]
    simp [h0, h2]
  · intro s hp
    unfold headerSizeUnmarshalJSON
    rw [hp]
    simp

/-- Witness for the fixed-size-pair length rules, at the inputs
`[1, 2, 3]` (rejected) and `[]` (accepted, receiver kept). -/
theorem headerSize_wrongLength_and_empty_witness :
    (∃ e, headerSizeUnmarshalJSON ⟨5, 6⟩ "[1, 2, 3]" = .error e) ∧
    headerSizeUnmarshalJSON ⟨5, 6⟩ "[]" = .ok ⟨5, 6⟩ :=
  ⟨(headerSize_wrongLength_and_empty ⟨5, 6⟩).1 "[1, 2, 3]" [1, 2, 3] (by rfl)
      (by decide) (by decide),
    (headerSize_wrongLength_and_empty ⟨5, 6⟩).2.1 "[]" (by rfl)⟩

/-- The payload variant statically corresponding to a discriminator:
`Listing` ↦ listing, `t1` ↦ comment, `t2` ↦ account, `t3` ↦ link,
`t4` ↦ message, `t5` ↦ community. -/
def kindMatches (k : String) (d : ThingData) : Prop :=
  (k = "Listing" ∧ ∃ l, d = .listing l) ∨
  (k = "t1" ∧ ∃ c, d = .comment c) ∨
  (k = "t2" ∧ ∃ a, d = .account a) ∨
  (k = "t3" ∧ ∃ l, d = .link l) ∨
  (k = "t4" ∧ ∃ m, d = .message m) ∨
  (k = "t5" ∧ ∃ s, d = .subReddit s)

/-- The discriminator values with a case in `Thing.UnmarshalJSON`'s
switch. -/
def recognizedKinds : List String := ["Listing", "t1", "t2", "t3", "t4", "t5"]

/-- A successful `Except.map` comes from a successful inner result. -/
theorem exceptMap_eq_ok {ε α β : Type} {f : α → β} {x : Except ε α} {b : β}
    (h : x.map f = .ok b) : ∃ a, x = .ok a ∧ b = f a := by
  cases x with
  | ok a => exact ⟨a, rfl, by simpa [Except.map] using h.symm⟩
  | error e => simp [Except.map] at h

/-- Whatever the fuel, a successful envelope decode carries the payload
variant selected by its own kind discriminator. -/
theorem decodeThingF_kind : ∀ (fuel : ℕ) (v : JVal) (t2 : Thing),
    decodeThingF fuel v = .ok t2 → kindMatches t2.Kind t2.Data := by
  intro fuel v t2 h
  match fuel with
  | 0 => simp [decodeThingF] at h
  | f + 1 =>
    rw [decodeThingF] at h
    split at h
    · simp at h
    next j hj =>
      split at h
      next h1 =>
        split at h
        · simp at h
        · obtain ⟨l, _, ht⟩ := exceptMap_eq_ok h
          subst ht
          exact Or.inl ⟨h1, l, rfl⟩
      next h1 =>
        split at h
        next h2 =>
          split at h
          · simp at h
          · obtain ⟨c, _, ht⟩ := exceptMap_eq_ok h
            subst ht
            exact Or.inr (Or.inl ⟨h2, c, rfl⟩)
        next h2 =>
          split at h
          next h3 =>
            split at h
            · simp at h
            · obtain ⟨a, _, ht⟩ := exceptMap_eq_ok h
              subst ht
              exact Or.inr (Or.inr (Or.inl ⟨h3, a, rfl⟩))
          next h3 =>
            split at h
            next h4 =>
              split at h
              · simp at h
              · obtain ⟨l, _, ht⟩ := exceptMap_eq_ok h
                subst ht
                exact Or.inr (Or.inr (Or.inr (Or.inl ⟨h4, l, rfl⟩)))
            next h4 =>
              split at h
              next h5 =>
                split at h
                · simp at h
                · obtain ⟨m, _, ht⟩ := exceptMap_eq_ok h
                  subst ht
                  exact Or.inr (Or.inr (Or.inr (Or.inr (Or.inl ⟨h5, m, rfl⟩))))
              next h5 =>
                split at h
                next h6 =>
                  split at h
                  · simp at h
                  · obtain ⟨s, _, ht⟩ := exceptMap_eq_ok h
                    subst ht
                    exact Or.inr (Or.inr (Or.inr (Or.inr (Or.inr ⟨h6, s, rfl⟩))))
                next h6 => simp at h

/-- An envelope whose parsed kind matches no switch case decodes to the
`unsupported kind` error naming that kind. -/
theorem decodeThing_unknownKind (v : JVal) (j : ThingJSON)
    (hj : decodeThingJSONv v = .ok j) (hk : j.Kind ∉ recognizedKinds) :
    decodeThing v = .error ("unsupported kind: " ++ j.Kind) := by
  simp [recognizedKinds] at hk
  obtain ⟨k1, k2, k3, k4, k5, k6⟩ := hk
  rw [decodeThing, decodeThingF, hj]
  simp [k1, k2, k3, k4, k5, k6]

/-- A minimal envelope with the given discriminator and an empty object
as data. -/
def envWith (k : String) : JVal :=
  .obj [("id", .str "i"), ("name", .str "n"), ("kind", .str k), ("data", .obj [])]

/-- C1 counterexample: an envelope carrying the "more" placeholder
discriminator does not decode to a `More` payload — `Thing.UnmarshalJSON`
has no case for it and fails as for any unknown kind. -/
theorem decodeThing_moreKind_fails :
    decodeThing (JVal.obj [("id", JVal.str "x"), ("name", JVal.str "more_1"),
      ("kind", JVal.str "more"),
      ("data", JVal.obj [("children", JVal.arr [JVal.str "t1_abc"])])]) =
    .error "unsupported kind: more" := by rfl

/-- C1 (amended): the recognized discriminators are exactly `Listing`,
`t1`, `t2`, `t3`, `t4` and `t5` — the "more" placeholder is not among
them. Every successful decode yields the payload variant statically
corresponding to its discriminator (each recognized kind is realized,
e.g. on a minimal envelope), and every envelope with an unrecognized
parsed kind fails with a `DecodeError` naming that kind, never a default
payload. -/
theorem thingDecode_dispatch :
    (∀ v t2, decodeThing v = .ok t2 → kindMatches t2.Kind t2.Data) ∧
    (∀ v j, decodeThingJSONv v = .ok j → j.Kind ∉ recognizedKinds →
      decodeThing v = .error ("unsupported kind: " ++ j.Kind)) ∧
    decodeThing (envWith "Listing") = .ok (.mk "i" "n" "Listing" (.listing Listing.zero)) ∧
    decodeThing (envWith "t1") = .ok (.mk "i" "n" "t1" (.comment Comment.zero)) ∧
    decodeThing (envWith "t2") = .ok (.mk "i" "n" "t2" (.account Account.zero)) ∧
    decodeThing (envWith "t3") = .ok (.mk "i" "n" "t3" (.link Link.zero)) ∧
    decodeThing (envWith "t4") = .ok (.mk "i" "n" "t4" (.message Message.zero)) ∧
    decodeThing (envWith "t5") = .ok (.mk "i" "n" "t5" (.subReddit SubReddit.zero)) :=
  ⟨fun v t2 h => decodeThingF_kind _ v t2 h, decodeThing_unknownKind,
    rfl, rfl, rfl, rfl, rfl, rfl⟩

/-- Witness for the dispatch theorem: a concrete successful `t3` decode
matches its variant, and a concrete unknown kind `t9` yields the naming
error. -/
theorem thingDecode_dispatch_witness :
    kindMatches (Thing.mk "i" "n" "t3" (.link Link.zero)).Kind
      (Thing.mk "i" "n" "t3" (.link Link.zero)).Data ∧
    decodeThing (envWith "t9") = .error "unsupported kind: t9" :=
  ⟨thingDecode_dispatch.1 (envWith "t3") (.mk "i" "n" "t3" (.link Link.zero)) (by rfl),
    thingDecode_dispatch.2.1 (envWith "t9") ⟨"i", "n", "t9", some (.obj [])⟩
      (by rfl) (by decide)⟩

/-- C8: whenever `Thing.UnmarshalJSON` returns an error — malformed
envelope, unrecognized kind, or nested payload failure — the receiver is
left completely unchanged; its fields are assigned only on total
success. -/
theorem thingUnmarshal_error_preserves_receiver (t : Thing) (v : JVal) (e : GoError)
    (h : (thingUnmarshalJSON t v).2 = some e) : (thingUnmarshalJSON t v).1 = t := by
  unfold thingUnmarshalJSON at h ⊢
  cases hd : decodeThingF (JVal.size v + 1) v <;> simp_all

/-- Witness: a non-zero receiver underneath a malformed envelope (a bare
number) is untouched. -/
theorem thingUnmarshal_error_preserves_receiver_witness :
    (thingUnmarshalJSON (.mk "a" "b" "t1" .empty) (JVal.num 3)).1 = .mk "a" "b" "t1" .empty :=
  thingUnmarshal_error_preserves_receiver (.mk "a" "b" "t1" .empty) (JVal.num 3)
    "json: cannot unmarshal value into Go value of type thingJSON" (by rfl)

/-- Bumping preserves the terminal error. -/
@[simp] theorem bump_err (s : StreamState) : (bump s).err = s.err := by
  unfold bump; split <;> rfl

/-- Bumping preserves the cached listing. -/
@[simp] theorem bump_listing (s : StreamState) : (bump s).listing = s.listing := by
  unfold bump; split <;> rfl

/-- Bumping preserves the fetch counter. -/
@[simp] theorem bump_fetched (s : StreamState) : (bump s).fetched = s.fetched := by
  unfold bump; split <;> rfl

/-- Bumping preserves the descriptor. -/
@[simp] theorem bump_opts (s : StreamState) : (bump s).opts = s.opts := by
  unfold bump; split <;> rfl

/-- Writing the continuation token preserves the terminal error. -/
@[simp] theorem toFetch_err (s : StreamState) : (toFetch s).err = s.err := by
  simp [toFetch]

/-- Writing the continuation token preserves the cached listing. -/
@[simp] theorem toFetch_listing (s : StreamState) : (toFetch s).listing = s.listing := by
  simp [toFetch]

/-- Writing the continuation token preserves the fetch counter. -/
@[simp] theorem toFetch_fetched (s : StreamState) : (toFetch s).fetched = s.fetched := by
  simp [toFetch]

/-- Writing the continuation token preserves the (bumped) index. -/
@[simp] theorem toFetch_index (s : StreamState) : (toFetch s).index = (bump s).index := by
  simp [toFetch]

/-- Writing the continuation token preserves the descriptor's count. -/
@[simp] theorem toFetch_opts_Count (s : StreamState) : (toFetch s).opts.Count = s.opts.Count := by
  simp [toFetch]

/-- The descriptor's `After` after the write is the cached listing's
continuation token. -/
@[simp] theorem toFetch_opts_After (s : StreamState) : (toFetch s).opts.After = s.listing.After := by
  simp [toFetch]

/-- A successful fetch clears the error. -/
@[simp] theorem afterFetch_err (s : StreamState) (l : Listing) : (afterFetch s l).err = none := by
  simp [afterFetch]

/-- A successful fetch installs the new page. -/
@[simp] theorem afterFetch_listing (s : StreamState) (l : Listing) :
    (afterFetch s l).listing = l := by
  simp [afterFetch]

/-- A successful fetch consumes exactly one response. -/
@[simp] theorem afterFetch_fetched (s : StreamState) (l : Listing) :
    (afterFetch s l).fetched = s.fetched + 1 := by
  simp [afterFetch]

/-- A successful fetch resets the index to 0. -/
@[simp] theorem afterFetch_index (s : StreamState) (l : Listing) : (afterFetch s l).index = 0 := by
  simp [afterFetch]

/-- A successful fetch adds the page size to the descriptor's count. -/
@[simp] theorem afterFetch_opts_Count (s : StreamState) (l : Listing) :
    (afterFetch s l).opts.Count = s.opts.Count + l.Children.length := by
  simp [afterFetch]

/-- A successful fetch leaves the descriptor's `After` at the token that
drove it. -/
@[simp] theorem afterFetch_opts_After (s : StreamState) (l : Listing) :
    (afterFetch s l).opts.After = s.listing.After := by
  simp [afterFetch]

/-- `indexValid` spelled out. -/
theorem indexValid_iff (s : StreamState) :
    indexValid s = true ↔ 0 ≤ s.index ∧ s.index < (s.listing.Children.length : ℤ) := by
  simp [indexValid]

/-- The index range invariant of a stream: at least -1 and at most the
cached page's length. -/
def streamInv (s : StreamState) : Prop :=
  -1 ≤ s.index ∧ s.index ≤ (s.listing.Children.length : ℤ)

/-- The increment-if-valid step preserves the index invariant: the index
is incremented only while strictly below the page length. -/
theorem streamInv_bump (s : StreamState) (h : streamInv s) : streamInv (bump s) := by
  unfold bump
  split
  next hv =>
    rw [indexValid_iff] at hv
    refine ⟨?_, ?_⟩ <;> simp <;> omega
  · exact h

/-- One `Next` call preserves the index invariant, whatever the URL
builder and transport do. -/
theorem streamInv_nextState (u : ListingOptions → Except GoError String)
    (f : ℕ → Except GoError Thing) (s : StreamState) (h : streamInv s) :
    streamInv (nextState u f s) := by
  unfold nextState
  rcases hn : next u f s with ⟨b, s2⟩ | _
  · unfold next at hn
    split at hn
    · cases hn; exact h
    split at hn
    · cases hn; exact streamInv_bump s h
    split at hn
    · cases hn; exact streamInv_bump s h
    split at hn
    · cases hn
      have hb := streamInv_bump s h
      constructor
      · show -1 ≤ (toFetch s).index
        rw [toFetch_index]
        exact hb.1
      · show (toFetch s).index ≤ _
        rw [toFetch_index]
        simpa [toFetch] using hb.2
    split at hn
    · cases hn
      refine ⟨by norm_num, ?_⟩
      show (0 : ℤ) ≤ ((toFetch s).listing.Children.length : ℤ)
      positivity
    split at hn
    · cases hn
      refine ⟨?_, ?_⟩ <;> simp [streamInv]
    · cases hn
  · exact h

/-- C9: for every cursor created by `Config.Stream` and every sequence of
`Next` calls, `-1 ≤ index ≤ length of the cached page's children` holds:
the index starts at -1, is incremented only while strictly below the page
length (`streamInv_bump`), and both fetch outcomes reset it to 0, so it
never exceeds the cached page's length. -/
theorem stream_index_invariant (opts : ListingOptions)
    (u : ListingOptions → Except GoError String) (f : ℕ → Except GoError Thing) :
    (streamInit opts).index = -1 ∧
    ∀ n, streamInv (iterStream u f n (streamInit opts)) := by
  refine ⟨rfl, ?_⟩
  have base : streamInv (streamInit opts) := by
    constructor <;> simp [streamInit, Listing.zero]
  have step : ∀ n s, streamInv s → streamInv (iterStream u f n s) := by
    intro n
    induction n with
    | zero => exact fun s h => h
    | succ m ih => exact fun s h => ih _ (streamInv_nextState u f s h)
  exact fun n => step n _ base

/-- C3: errors are terminal. Once the terminal error is set, `Next`
returns false and leaves the whole state — fetch counter included —
unchanged; the call on which a URL-build, transport or decode error
arises returns false, records the error retrievably via `Error`, and does
not replace the previously cached page; and any number of further `Next`
calls leave the failed state untouched. -/
theorem stream_error_terminal (u : ListingOptions → Except GoError String)
    (f : ℕ → Except GoError Thing) :
    (∀ s, s.err.isSome → next u f s = .ret false s) ∧
    (∀ s b s2, next u f s = .ret b s2 → s.err = none → s2.err.isSome →
      b = false ∧ s2.listing = s.listing ∧ streamError s2 = s2.err) ∧
    (∀ s n, s.err.isSome → iterStream u f n s = s) := by
  have habs : ∀ s, s.err.isSome → next u f s = .ret false s := by
    intro s h
    unfold next
    simp [h]
  refine ⟨habs, ?_, ?_⟩
  · intro s b s2 h hnone hsome
    unfold next at h
    split at h
    · cases h
      simp_all
    split at h
    · cases h
      simp_all
    split at h
    · cases h
      simp_all
    split at h
    · cases h
      simp [streamError]
    split at h
    · cases h
      simp [streamError]
    split at h
    · cases h
      simp_all
    · cases h
  · intro s n h
    induction n with
    | zero => rfl
    | succ m ih =>
      show iterStream u f m (nextState u f s) = s
      rw [show nextState u f s = s from by unfold nextState; rw [habs s h]]
      exact ih

/-- A transport that always fails. -/
def failFetch : ℕ → Except GoError Thing := fun _ => .error "transport failure"

/-- Witness for error terminality: after the first fetch fails, the next
call returns false on the unchanged state, the cached page was never
replaced, and five further calls change nothing. -/
theorem stream_error_terminal_witness :
    next urlConst failFetch (iterStream urlConst failFetch 1 (streamInit ListingOptions.zero))
      = .ret false (iterStream urlConst failFetch 1 (streamInit ListingOptions.zero)) ∧
    (iterStream urlConst failFetch 1 (streamInit ListingOptions.zero)).listing
      = (streamInit ListingOptions.zero).listing ∧
    iterStream urlConst failFetch 5
        (iterStream urlConst failFetch 1 (streamInit ListingOptions.zero))
      = iterStream urlConst failFetch 1 (streamInit ListingOptions.zero) :=
  ⟨(stream_error_terminal urlConst failFetch).1
      (iterStream urlConst failFetch 1 (streamInit ListingOptions.zero)) (by rfl),
    ((stream_error_terminal urlConst failFetch).2.1 (streamInit ListingOptions.zero) false
      (iterStream urlConst failFetch 1 (streamInit ListingOptions.zero))
      (by rfl) (by rfl) (by rfl)).2.1,
    (stream_error_terminal urlConst failFetch).2.2
      (iterStream urlConst failFetch 1 (streamInit ListingOptions.zero)) 5 (by rfl)⟩

/-- Any `Next` call that both consumed a response and ended without error
is a successful page fetch, and it added exactly the received page's size
to the descriptor's count. -/
theorem stream_count_core (u : ListingOptions → Except GoError String)
    (f : ℕ → Except GoError Thing) (s : StreamState) (b : Bool) (s2 : StreamState)
    (h : next u f s = .ret b s2) (hf : s2.fetched = s.fetched + 1) (he : s2.err = none) :
    s2.opts.Count = s.opts.Count + s2.listing.Children.length := by
  unfold next at h
  split at h
  · cases h; simp at hf
  split at h
  · cases h; simp at hf
  split at h
  · cases h; simp at hf
  split at h
  · cases h; simp at hf
  split at h
  · cases h; simp at he
  split at h
  · cases h; simp
  · cases h

/-- A distinguishable stub entity for concrete pages. -/
def pageItem (n : ℕ) : Thing := .mk (toString n) "" "t3" .empty

/-- A concrete first page: five entities, continuation token `a1`. -/
def pageOne : Listing :=
  ⟨"", "a1", "", [pageItem 0, pageItem 1, pageItem 2, pageItem 3, pageItem 4]⟩

/-- A concrete second page: five entities, continuation token `a2`. -/
def pageTwo : Listing :=
  ⟨"", "a2", "", [pageItem 5, pageItem 6, pageItem 7, pageItem 8, pageItem 9]⟩

/-- A concrete last page: two entities, empty continuation token. -/
def pageThree : Listing := ⟨"", "", "", [pageItem 10, pageItem 11]⟩

/-- C7: after every successful page fetch the cursor increments the
descriptor's count field by the number of entities just received; in
particular, over the concrete three-page run, the cumulative count is 10
once the two 5-entity pages are consumed — the state from which the
eleventh `Next` call builds the third page's URL and performs the third
fetch. -/
theorem stream_count_accumulates :
    (∀ u f s b s2, next u f s = .ret b s2 → s2.fetched = s.fetched + 1 → s2.err = none →
      s2.opts.Count = s.opts.Count + s2.listing.Children.length) ∧
    (iterStream urlConst (oracle3 pageOne pageTwo pageThree) 10
      (streamInit ListingOptions.zero)).opts.Count = 10 ∧
    (iterStream urlConst (oracle3 pageOne pageTwo pageThree) 11
      (streamInit ListingOptions.zero)).fetched = 3 :=
  ⟨stream_count_core, by rfl, by rfl⟩

/-- Witness for count accumulation, at the first fetch of the concrete
three-page run: the count grows from 0 by the first page's size. -/
theorem stream_count_accumulates_witness :
    (iterStream urlConst (oracle3 pageOne pageTwo pageThree) 1
        (streamInit ListingOptions.zero)).opts.Count
      = (streamInit ListingOptions.zero).opts.Count
        + (iterStream urlConst (oracle3 pageOne pageTwo pageThree) 1
            (streamInit ListingOptions.zero)).listing.Children.length :=
  stream_count_accumulates.1 urlConst (oracle3 pageOne pageTwo pageThree)
    (streamInit ListingOptions.zero) true
    (iterStream urlConst (oracle3 pageOne pageTwo pageThree) 1 (streamInit ListingOptions.zero))
    (by rfl) (by rfl) (by rfl)

/-- The transport's next response, if it succeeds, decodes to a listing
entity (anything else would trip the `t.Data.(*Listing)` assertion). -/
def fetchGivesListing (f : ℕ → Except GoError Thing) (n : ℕ) : Prop :=
  ∀ t, f n = .ok t → ∃ l, t.Data = ThingData.listing l

/-- A cache-exhausted, error-free stream whose continuation token is
non-empty performs a fetch on `Next`: it consumes a response using the
token written into the descriptor. -/
theorem next_refetch (u2 : ListingOptions → Except GoError String)
    (f : ℕ → Except GoError Thing) (s2 : StreamState) (hv : indexValid s2 = false)
    (h1 : s2.err = none) (h2 : s2.listing.After ≠ "") (url : String)
    (hu : u2 {s2.opts with After := s2.listing.After} = .ok url)
    (hfl : fetchGivesListing f s2.fetched) :
    ∃ b3 s3, next u2 f s2 = .ret b3 s3 ∧ s3.fetched = s2.fetched + 1 ∧
      s3.opts.After = s2.listing.After := by
  have hb : bump s2 = s2 := by unfold bump; simp [hv]
  have hopts : (toFetch s2).opts = {s2.opts with After := s2.listing.After} := by
    unfold toFetch
    rw [hb]
  cases hf2 : f s2.fetched with
  | error e =>
    refine ⟨false,
      {toFetch s2 with index := 0, err := some e, fetched := (toFetch s2).fetched + 1},
      ?_, by simp, by simp⟩
    unfold next
    simp [h1, hv, hb, h2, hopts, hu, hf2]
  | ok t =>
    obtain ⟨l2, hd⟩ := hfl t hf2
    refine ⟨indexValid (afterFetch s2 l2), afterFetch s2 l2, ?_, by simp, by simp⟩
    unfold next
    simp [h1, hv, hb, h2, hopts, hu, hf2, hd]

/-- A false `Next` return that set no error and left a non-empty
continuation token can only have come from fetching an empty page, whose
index is 0 over no children — so the index is not valid. -/
theorem nextFalse_invalid (u : ListingOptions → Except GoError String)
    (f : ℕ → Except GoError Thing) (s s2 : StreamState)
    (h : next u f s = .ret false s2) (h1 : s2.err = none) (h2 : s2.listing.After ≠ "") :
    indexValid s2 = false := by
  unfold next at h
  split at h
  · cases h; simp_all
  split at h
  · cases h
  split at h
  · cases h; simp_all
  split at h
  · cases h; simp_all
  split at h
  · cases h; simp_all
  split at h
  · injection h with hb hs
    subst hs
    exact hb
  · cases h

/-- A fetch-eligible stream receiving an empty page with a continuation
token: `Next` returns false with no error, having consumed one
response. -/
theorem next_fetch_emptyPage (u : ListingOptions → Except GoError String)
    (f : ℕ → Except GoError Thing) (s : StreamState) (l : Listing) (url : String)
    (he : s.err = none) (hv : indexValid s = false)
    (hc : ¬ (s.listing.After = "" ∧ s.index ≠ -1))
    (hu : u (toFetch s).opts = .ok url)
    (hf : f s.fetched = .ok (listingThing l)) (hl : l.Children = []) :
    next u f s = .ret false (afterFetch s l) ∧ (afterFetch s l).err = none ∧
      (afterFetch s l).fetched = s.fetched + 1 := by
  have hb : bump s = s := by unfold bump; simp [hv]
  have hva : indexValid (afterFetch s l) = false := by
    simp [indexValid, hl]
  refine ⟨?_, by simp, by simp⟩
  unfold next
  simp [he, hv, hb, hc, hu, hf, listingThing, Thing.Data, hva]

/-- C10: fetching an empty page that carries a non-empty continuation
token makes `Next` return false with a nil error, yet the cursor is not
terminal — the following `Next` call attempts another fetch with that
token written into the descriptor. A false return is permanent only when
an error is set or the last fetched page's continuation token is
empty. -/
theorem stream_emptyPage_not_terminal :
    (∀ (u : ListingOptions → Except GoError String) (f : ℕ → Except GoError Thing)
      (s : StreamState) (l : Listing) (url : String),
      s.err = none → indexValid s = false → ¬ (s.listing.After = "" ∧ s.index ≠ -1) →
      u (toFetch s).opts = .ok url → f s.fetched = .ok (listingThing l) → l.Children = [] →
      next u f s = .ret false (afterFetch s l) ∧ (afterFetch s l).err = none ∧
        (afterFetch s l).fetched = s.fetched + 1) ∧
    (∀ (u u2 : ListingOptions → Except GoError String) (f : ℕ → Except GoError Thing)
      (s s2 : StreamState) (url : String),
      next u f s = .ret false s2 → s2.err = none → s2.listing.After ≠ "" →
      u2 {s2.opts with After := s2.listing.After} = .ok url →
      fetchGivesListing f s2.fetched →
      ∃ b3 s3, next u2 f s2 = .ret b3 s3 ∧ s3.fetched = s2.fetched + 1 ∧
        s3.opts.After = s2.listing.After) :=
  ⟨fun u f s l url he hv hc hu hf hl => next_fetch_emptyPage u f s l url he hv hc hu hf hl,
    fun u u2 f s s2 url h h1 h2 hu hfl =>
      next_refetch u2 f s2 (nextFalse_invalid u f s s2 h h1 h2) h1 h2 url hu hfl⟩

/-- An empty page carrying the continuation token `T`. -/
def emptyTokPage : Listing := ⟨"", "T", "", []⟩

/-- A transport serving the empty tokenful page first, then the concrete
last page. -/
def oracleEmptyTok : ℕ → Except GoError Thing :=
  fun n => if n = 0 then .ok (listingThing emptyTokPage) else .ok (listingThing pageThree)

/-- Witness for the empty-page behaviour: on a fresh stream the first
call fetches the empty tokenful page and returns false without error,
and the second call fetches again, using token `T`. -/
theorem stream_emptyPage_not_terminal_witness :
    (next urlConst oracleEmptyTok (streamInit ListingOptions.zero)
      = .ret false (afterFetch (streamInit ListingOptions.zero) emptyTokPage) ∧
     (afterFetch (streamInit ListingOptions.zero) emptyTokPage).err = none ∧
     (afterFetch (streamInit ListingOptions.zero) emptyTokPage).fetched = 1) ∧
    (∃ b3 s3, next urlConst oracleEmptyTok
        (iterStream urlConst oracleEmptyTok 1 (streamInit ListingOptions.zero))
        = .ret b3 s3 ∧ s3.fetched = 2 ∧ s3.opts.After = "T") := by
  constructor
  · exact stream_emptyPage_not_terminal.1 urlConst oracleEmptyTok
      (streamInit ListingOptions.zero) emptyTokPage "u"
      (by rfl) (by rfl) (by decide) (by rfl) (by rfl) (by rfl)
  · obtain ⟨b3, s3, hn, hf, ha⟩ := stream_emptyPage_not_terminal.2 urlConst urlConst
      oracleEmptyTok (streamInit ListingOptions.zero)
      (iterStream urlConst oracleEmptyTok 1 (streamInit ListingOptions.zero)) "u"
      (by rfl) (by rfl) (by decide) (by rfl)
      (by
        intro t ht
        injection ht with hte
        subst hte
        exact ⟨pageThree, rfl⟩)
    exact ⟨b3, s3, hn, hf.trans (by rfl), ha.trans (by rfl)⟩

/-- A list of length 5 in explicit form. -/
theorem len5 {α : Type} (l : List α) (h : l.length = 5) :
    ∃ a b c d e, l = [a, b, c, d, e] := by
  rcases l with _ | ⟨a, _ | ⟨b, _ | ⟨c, _ | ⟨d, _ | ⟨e, _ | ⟨x, t⟩⟩⟩⟩⟩⟩ <;> simp_all

/-- A list of length 2 in explicit form. -/
theorem len2 {α : Type} (l : List α) (h : l.length = 2) :
    ∃ a b, l = [a, b] := by
  rcases l with _ | ⟨a, _ | ⟨b, _ | ⟨x, t⟩⟩⟩ <;> simp_all

set_option maxHeartbeats 1000000 in
/-- C2: for every 3-page sequence of sizes {5, 5, 2} whose first two
pages carry a non-empty continuation token and whose last page's token is
empty, running the consumer loop to completion yields exactly the 12
entities in their original page order, after which `Next` has returned
false with `Error` nil and keeps doing so on the unchanged state. -/
theorem stream_threePages (p1 p2 p3 : Listing) (opts : ListingOptions)
    (h1 : p1.Children.length = 5) (h2 : p2.Children.length = 5) (h3 : p3.Children.length = 2)
    (hA1 : p1.After ≠ "") (hA2 : p2.After ≠ "") (hA3 : p3.After = "") :
    (collectN urlConst (oracle3 p1 p2 p3) 13 (streamInit opts)).1
        = p1.Children ++ p2.Children ++ p3.Children ∧
    streamError (collectN urlConst (oracle3 p1 p2 p3) 13 (streamInit opts)).2 = none ∧
    next urlConst (oracle3 p1 p2 p3) (collectN urlConst (oracle3 p1 p2 p3) 13 (streamInit opts)).2
        = .ret false (collectN urlConst (oracle3 p1 p2 p3) 13 (streamInit opts)).2 := by
  obtain ⟨a1, a2, a3, a4, a5, e1⟩ := len5 p1.Children h1
  obtain ⟨b1, b2, b3, b4, b5, e2⟩ := len5 p2.Children h2
  obtain ⟨c1, c2, e3⟩ := len2 p3.Children h3
  rcases p1 with ⟨bf1, af1, mh1, ch1⟩
  rcases p2 with ⟨bf2, af2, mh2, ch2⟩
  rcases p3 with ⟨bf3, af3, mh3, ch3⟩
  simp only at e1 e2 e3 hA1 hA2 hA3
  subst e1 e2 e3 hA3
  refine ⟨?_, ?_, ?_⟩ <;>
    simp [collectN, next, bump, toFetch, afterFetch, indexValid, streamThing, streamInit,
      oracle3, urlConst, listingThing, streamError, Thing.Data, hA1, hA2, Listing.zero,
      List.getD]

/-- Witness for the three-page run, on the concrete pages of 5, 5 and 2
entities with tokens `a1`, `a2` and the empty token. -/
theorem stream_threePages_witness :
    (collectN urlConst (oracle3 pageOne pageTwo pageThree) 13 (streamInit ListingOptions.zero)).1
        = pageOne.Children ++ pageTwo.Children ++ pageThree.Children ∧
    streamError (collectN urlConst (oracle3 pageOne pageTwo pageThree) 13
        (streamInit ListingOptions.zero)).2 = none ∧
    next urlConst (oracle3 pageOne pageTwo pageThree)
        (collectN urlConst (oracle3 pageOne pageTwo pageThree) 13
          (streamInit ListingOptions.zero)).2
      = .ret false (collectN urlConst (oracle3 pageOne pageTwo pageThree) 13
          (streamInit ListingOptions.zero)).2 :=
  stream_threePages pageOne pageTwo pageThree ListingOptions.zero
    rfl rfl rfl (by decide) (by decide) rfl
